import Mathlib

/-!
Verification of the layer-wrapper engine (`neural_nets/wrappers.py`) of the
numpy-ml fork, together with spec-modelled fragments of the base-layer
contract (the atomic layer classes such as `Conv2D` live in `layers.py`,
which is not part of the sources here; only their contract from the
specification and their test harness are available).

Conventions of the shallow embedding:
* numeric tensors are `Tensor` (an explicit shape plus a flat list of
  rationals); elementwise arithmetic is `List.zipWith`;
* Python dictionaries whose keys matter to the claims are structures
  (`HyperParams`, `Summary`) or association lists (`parameters`,
  `gradients`);
* Python exceptions (`AssertionError`, `AttributeError`, `KeyError`) are an
  explicit `PyError` value, and fallible methods return `Except PyError`;
* the stochastic mask of `Dropout.forward` is made explicit: the stream of
  draws of `np.random.rand` is an input `rands : List Rat` of uniform
  samples in `[0, 1)`.
-/

/-- An error raised by the Python runtime while executing wrapper code. -/
inductive PyError where
  | attributeError : PyError
  | assertionError : String → PyError
  | keyError : String → PyError
deriving Repr, DecidableEq

/-- A numeric tensor: a shape together with the flat row-major data. -/
structure Tensor where
  shape : List Nat
  data : List Rat
deriving Repr, DecidableEq

/-- The zero tensor with a given shape and number of entries. -/
def zeroTensor (shape : List Nat) (n : Nat) : Tensor :=
  { shape := shape, data := List.replicate n 0 }

/-- A zero tensor of the same shape (and entry count) as `t`. -/
def zerosLike (t : Tensor) : Tensor :=
  { shape := t.shape, data := t.data.map (fun _ => 0) }

/-- Elementwise difference of two tensors (shape of the first argument). -/
def tensorSub (a b : Tensor) : Tensor :=
  { shape := a.shape, data := List.zipWith (fun x y => x - y) a.data b.data }

/-- Scalar multiple of a tensor. -/
def tensorSmul (c : Rat) (t : Tensor) : Tensor :=
  { shape := t.shape, data := t.data.map (fun x => c * x) }

/-- The descriptor a wrapper stores in `_wrapper_hyperparameters`: for
`Dropout` this is the dict `{"wrapper": "Dropout", "p": p}`
(wrappers.py line 109). -/
structure WrapperDesc where
  wrapper : String
  p : Rat
deriving Repr, DecidableEq

/-- A base layer's hyperparameter dictionary.  The `layer` entry (the layer
name) is always present; the `wrappers` entry is optional (`none` models the
key being absent, which `_init_params` tests with `"wrappers" in ...`); all
remaining configuration entries (kernel shape, stride, pad, momentum, ...)
are collected in `rest`. -/
structure HyperParams where
  layer : String
  wrappers : Option (List WrapperDesc)
  rest : List (String × Rat)
deriving Repr, DecidableEq

/-- A serialized layer description as produced by `summary()` (wrappers.py
lines 92-98): exactly the keys `layer`, `layer_wrappers`, `parameters` and
`hyperparameters`. -/
structure Summary where
  layer : String
  layer_wrappers : List String
  parameters : List (String × Tensor)
  hyperparameters : HyperParams
deriving Repr, DecidableEq

/-- Modelled from the spec: the state of an atomic base layer (the layer
classes themselves are not among the sources; their state model is §3 of the
specification).  `forwardFn` and `backwardFn` abstract the layer's own
forward/backward formulas, which are layer-specific and out of scope for the
wrapper claims. -/
structure BaseLayer where
  trainable : Bool
  parameters : List (String × Tensor)
  gradients : List (String × Tensor)
  hyperparameters : HyperParams
  derived_variables : List (String × Tensor)
  n_in : Nat
  n_out : Nat
  act_fn : String
  X : Tensor
  forwardFn : Tensor → Tensor
  backwardFn : Tensor → Tensor

/-- Modelled from the spec: `freeze()` on a base layer sets the trainable
flag to `False` (§4.1: "freeze() / unfreeze(): toggle the trainable
flag"). -/
def BaseLayer.freeze (l : BaseLayer) : BaseLayer :=
  { l with trainable := false }

/-- Modelled from the spec: `unfreeze()` on a base layer sets the trainable
flag back to `True` (§4.1). -/
def BaseLayer.unfreeze (l : BaseLayer) : BaseLayer :=
  { l with trainable := true }

/-- Modelled from the spec: `flush_gradients()` on a base layer resets all
gradient accumulators to zero-valued tensors of the correct shape (§4.1). -/
def BaseLayer.flush_gradients (l : BaseLayer) : BaseLayer :=
  { l with gradients := l.gradients.map (fun kv => (kv.1, zerosLike kv.2)) }

/-- Modelled from the spec: the parameter-update rule of `update(lr)`.  The
exact rule is a pluggable policy (§4.1); plain gradient descent, the example
the spec gives, is used: each parameter steps by `-lr` times the gradient
accumulated under the same key. -/
def gdStep (lr : Rat) (params grads : List (String × Tensor)) :
    List (String × Tensor) :=
  params.map (fun kv =>
    match grads.lookup kv.1 with
    | some g => (kv.1, tensorSub kv.2 (tensorSmul lr g))
    | none => kv)

/-- Modelled from the spec: `update(lr)` on a base layer applies a parameter
update using the accumulated gradient and the scalar learning rate, then
implicitly flushes gradients (§4.1). -/
def BaseLayer.update (l : BaseLayer) (lr : Rat) : BaseLayer :=
  BaseLayer.flush_gradients
    { l with parameters := gdStep lr l.parameters l.gradients }

/-- Modelled from the spec: `set_params(summary)` on a base layer restores
the layer's parameters and hyperparameters from a serialized description
(§4.1, §6 checkpoint interface). -/
def BaseLayer.set_params (l : BaseLayer) (s : Summary) : BaseLayer :=
  { l with parameters := s.parameters, hyperparameters := s.hyperparameters }

/-- The attributes a `Dropout` wrapper object owns after `__init__`
(wrappers.py lines 7-11 and 102-106): `_base_layer` (line 8, possibly
re-bound to the wrapped wrapper's own base layer, line 10), `p` (line 104)
and `_wrapper_hyperparameters` (line 109).  No other attribute is ever
assigned on the instance. -/
structure DropoutObj where
  base_layer : BaseLayer
  p : Rat
  wrapper_hyperparameters : WrapperDesc

/-- The object passed to `WrapperBase.__init__` is either a plain layer or
an existing wrapper; the constructor distinguishes the two with
`hasattr(wrapped_layer, "_base_layer")` (wrappers.py line 9). -/
inductive LayerRef where
  | base (l : BaseLayer)
  | wrapper (d : DropoutObj)

/-- The `_base_layer` binding performed by `WrapperBase.__init__`
(wrappers.py lines 7-10): a plain layer is stored as is; for a wrapper
argument the constructor stores the argument's own `_base_layer` instead. -/
def LayerRef.resolve : LayerRef → BaseLayer
  | .base l => l
  | .wrapper d => d.base_layer

/-- `WrapperBase._init_params` (wrappers.py lines 61-66): append the
wrapper's hyperparameter descriptor to the base layer's `"wrappers"`
hyperparameter entry, creating that list when the key is absent. -/
def initParams (hp : WrapperDesc) (l : BaseLayer) : BaseLayer :=
  { l with hyperparameters :=
      { l.hyperparameters with wrappers :=
          match l.hyperparameters.wrappers with
          | some ws => some (ws ++ [hp])
          | none => some [hp] } }

/-- `Dropout.__init__` (wrappers.py lines 102-106): bind `_base_layer` via
`WrapperBase.__init__`, store `p`, build `_wrapper_hyperparameters`
(`_init_wrapper_params`, line 109), and attach the descriptor to the base
layer's hyperparameters (`_init_params`). -/
def mkDropout (wrapped : LayerRef) (p : Rat) : DropoutObj :=
  let hp : WrapperDesc := { wrapper := "Dropout", p := p }
  { base_layer := initParams hp wrapped.resolve
    p := p
    wrapper_hyperparameters := hp }

/-- The `_wrapped_layer` attribute that `Dropout.forward` and
`Dropout.backward` read (wrappers.py lines 115 and 119).  No constructor or
method in wrappers.py ever assigns it (`__init__` assigns `_base_layer`,
line 8), so the attribute lookup finds nothing on every instance. -/
def DropoutObj.wrappedLayerAttr (_ : DropoutObj) : Option BaseLayer := none

namespace DropoutObj

/-- `WrapperBase.trainable` (wrappers.py lines 25-27). -/
def trainable (d : DropoutObj) : Bool := d.base_layer.trainable

/-- `WrapperBase.parameters` (wrappers.py lines 29-31). -/
def parameters (d : DropoutObj) : List (String × Tensor) :=
  d.base_layer.parameters

/-- `WrapperBase.hyperparameters` (wrappers.py lines 33-35). -/
def hyperparameters (d : DropoutObj) : HyperParams :=
  d.base_layer.hyperparameters

/-- `WrapperBase.gradients` (wrappers.py lines 37-39). -/
def gradients (d : DropoutObj) : List (String × Tensor) :=
  d.base_layer.gradients

/-- `WrapperBase.derived_variables` (wrappers.py lines 41-43). -/
def derived_variables (d : DropoutObj) : List (String × Tensor) :=
  d.base_layer.derived_variables

/-- `WrapperBase.n_in` (wrappers.py lines 45-47). -/
def n_in (d : DropoutObj) : Nat := d.base_layer.n_in

/-- `WrapperBase.n_out` (wrappers.py lines 49-51). -/
def n_out (d : DropoutObj) : Nat := d.base_layer.n_out

/-- `WrapperBase.act_fn` (wrappers.py lines 53-55). -/
def act_fn (d : DropoutObj) : String := d.base_layer.act_fn

/-- `WrapperBase.X` (wrappers.py lines 57-59). -/
def X (d : DropoutObj) : Tensor := d.base_layer.X

/-- `WrapperBase.freeze` (wrappers.py lines 68-69): delegates to the base
layer's `freeze`. -/
def freeze (d : DropoutObj) : DropoutObj :=
  { d with base_layer := d.base_layer.freeze }

/-- `WrapperBase.unfreeze` as written (wrappers.py lines 71-72): the body is
`self._base_layer.freeze()` — it calls `freeze`, not `unfreeze`, on the base
layer. -/
def unfreeze (d : DropoutObj) : DropoutObj :=
  { d with base_layer := d.base_layer.freeze }

/-- `WrapperBase.flush_gradients` (wrappers.py lines 74-76): asserts the
layer is trainable before delegating; the assertion is the first statement,
so a frozen layer raises before any state is touched. -/
def flush_gradients (d : DropoutObj) : Except PyError DropoutObj :=
  if d.trainable then
    .ok { d with base_layer := d.base_layer.flush_gradients }
  else
    .error (.assertionError "Layer is frozen")

/-- `WrapperBase.update` (wrappers.py lines 78-81): asserts the layer is
trainable, then calls the base layer's `update(lr)` followed by its
`flush_gradients()`. -/
def update (d : DropoutObj) (lr : Rat) : Except PyError DropoutObj :=
  if d.trainable then
    .ok { d with base_layer := (d.base_layer.update lr).flush_gradients }
  else
    .error (.assertionError "Layer is frozen")

/-- `WrapperBase.set_params` (wrappers.py lines 89-90): delegates to the
base layer's `set_params`. -/
def set_params (d : DropoutObj) (s : Summary) : DropoutObj :=
  { d with base_layer := d.base_layer.set_params s }

/-- `WrapperBase.summary` (wrappers.py lines 92-98): reads
`hyperparameters["layer"]` and `hyperparameters["wrappers"]` (a `KeyError`
when the latter key is absent), lists the attached wrapper names, and
returns the four-key dict. -/
def summary (d : DropoutObj) : Except PyError Summary :=
  match d.hyperparameters.wrappers with
  | none => .error (.keyError "wrappers")
  | some ws =>
      .ok { layer := d.hyperparameters.layer
            layer_wrappers := ws.map (fun i => i.wrapper)
            parameters := d.parameters
            hyperparameters := d.hyperparameters }

end DropoutObj

/-- One draw of the elementwise keep-mask of `Dropout.forward` (wrappers.py
line 113): `np.random.rand(...) >= self.p` keeps an element exactly when the
uniform sample is at least `p`. -/
def dropoutKeep (p r : Rat) : Bool := decide (p ≤ r)

/-- The numeric value of one mask entry: numpy's boolean mask multiplies as
`1` (kept) or `0` (dropped). -/
def maskVal (p r : Rat) : Rat := if dropoutKeep p r then 1 else 0

/-- The elementwise product `dropout_mask * X` of wrappers.py lines 113-114,
with the stream of uniform draws made explicit. -/
def dropoutMaskedData (p : Rat) (rands xs : List Rat) : List Rat :=
  List.zipWith (fun r x => maskVal p r * x) rands xs

/-- The input actually handed on by `Dropout.forward` after the optional
masking step (wrappers.py lines 112-114): masked when the layer is
trainable, untouched otherwise. -/
def dropoutMaskedTensor (d : DropoutObj) (rands : List Rat) (X : Tensor) :
    Tensor :=
  if d.trainable then { shape := X.shape, data := dropoutMaskedData d.p rands X.data }
  else X

/-- `Dropout.forward` (wrappers.py lines 111-115): optionally mask the
input, then delegate to `self._wrapped_layer.forward` — an attribute that
was never assigned, so the delegation is an `AttributeError`. -/
def DropoutObj.forward (d : DropoutObj) (rands : List Rat) (X : Tensor) :
    Except PyError Tensor :=
  let Xm := dropoutMaskedTensor d rands X
  match d.wrappedLayerAttr with
  | some l => .ok (l.forwardFn Xm)
  | none => .error .attributeError

/-- `Dropout.backward` (wrappers.py lines 117-119): assert the layer is
trainable, then delegate to `self._wrapped_layer.backward` — again an
attribute that was never assigned. -/
def DropoutObj.backward (d : DropoutObj) (dLdy : Tensor) :
    Except PyError Tensor :=
  if d.trainable then
    match d.wrappedLayerAttr with
    | some l => .ok (l.backwardFn dLdy)
    | none => .error .attributeError
  else
    .error (.assertionError "Layer is frozen")

/-- Expectation of a function of one Bernoulli draw with keep probability
`q`. -/
def bernoulliExpect (q : Rat) (f : Bool → Rat) : Rat :=
  q * f true + (1 - q) * f false

/-- A concrete base layer used for closed witness statements. -/
def sampleLayer : BaseLayer :=
  { trainable := true
    parameters := [("W", { shape := [2], data := [1, 2] })]
    gradients := [("W", { shape := [2], data := [3, 4] })]
    hyperparameters := { layer := "FullyConnected", wrappers := none
                         rest := [("momentum", (9 : Rat) / 10)] }
    derived_variables := []
    n_in := 2
    n_out := 1
    act_fn := "Tanh"
    X := { shape := [2], data := [0, 0] }
    forwardFn := fun t => t
    backwardFn := fun t => t }

/-- A frozen Dropout wrapper over the concrete sample layer. -/
def frozenSample : DropoutObj :=
  mkDropout (.base (sampleLayer.freeze)) ((1 : Rat) / 2)

/-- Sum of a list of rationals. -/
def ratSum (l : List Rat) : Rat := l.foldr (fun x s => x + s) 0

/-- Modelled from the spec: the offsets at which a receptive field of extent
`k` fits inside a (padded) 1-D extent `size`, starting at offset `0` and
advancing by `stride` (§4.4: the forward pass visits "every output spatial
position"; a position is one where the receptive field lies inside the
padded input).  The `Conv2D` implementation itself (layers.py) is not among
the sources. -/
def windowOffsets (size k stride : Nat) : List Nat :=
  ((List.range size).map (fun i => i * stride)).filter
    (fun off => off + k ≤ size)

/-- Modelled from the spec: Conv2D configuration (§4.4): kernel shape,
stride, symmetric scalar zero-padding, channel counts. -/
structure Conv2DCfg where
  kernelRows : Nat
  kernelCols : Nat
  stride : Nat
  pad : Nat
  inChannels : Nat
  outChannels : Nat

/-- Modelled from the spec: symmetric zero-padding of the input (§4.4
"Forward pads the input"): pixel `(i, j)` of the padded image reads the
original image shifted by `pad`, and is `0` on the border. -/
def paddedPixel (pad inRows inCols : Nat) (X : Nat → Nat → Nat → Rat)
    (i j c : Nat) : Rat :=
  if pad ≤ i ∧ pad ≤ j ∧ i < inRows + pad ∧ j < inCols + pad then
    X (i - pad) (j - pad) c
  else 0

/-- Modelled from the spec: the dot product of one receptive field with one
kernel slice plus the bias (§4.4). -/
def receptiveDot (cfg : Conv2DCfg) (W : Nat → Nat → Nat → Nat → Rat)
    (bias : Nat → Rat) (Xp : Nat → Nat → Nat → Rat) (i j o : Nat) : Rat :=
  bias o + ratSum ((List.range cfg.kernelRows).map (fun a =>
    ratSum ((List.range cfg.kernelCols).map (fun b =>
      ratSum ((List.range cfg.inChannels).map (fun c =>
        Xp (i + a) (j + b) c * W a b c o))))))

/-- Modelled from the spec: `Conv2D.forward` for one example (§4.4): pad the
input, then for every output spatial position and output channel compute the
receptive-field dot product plus bias, followed by the activation. -/
def conv2DForward (cfg : Conv2DCfg) (act : Rat → Rat)
    (W : Nat → Nat → Nat → Nat → Rat) (bias : Nat → Rat)
    (inRows inCols : Nat) (X : Nat → Nat → Nat → Rat) :
    List (List (List Rat)) :=
  let pr := inRows + 2 * cfg.pad
  let pc := inCols + 2 * cfg.pad
  let Xp := paddedPixel cfg.pad inRows inCols X
  (windowOffsets pr cfg.kernelRows cfg.stride).map (fun i =>
    (windowOffsets pc cfg.kernelCols cfg.stride).map (fun j =>
      (List.range cfg.outChannels).map (fun o =>
        act (receptiveDot cfg W bias Xp i j o))))

/-- The concrete Conv2D configuration of the spec's §8 example:
`kernel=(3,3), pad=1, stride=1, n_in=2, n_out=3`. -/
def convCfgSample : Conv2DCfg :=
  { kernelRows := 3
    kernelCols := 3
    stride := 1
    pad := 1
    inChannels := 2
    outChannels := 3 }

/-- The data-model invariant of §3: gradient accumulators carry the same
keys, in the same order, with the same shapes and entry counts as the
parameters they accumulate for. -/
def alignedB : List (String × Tensor) → List (String × Tensor) → Bool
  | [], [] => true
  | g :: gs, q :: qs =>
      (g.1 == q.1 && g.2.shape == q.2.shape
        && g.2.data.length == q.2.data.length) && alignedB gs qs
  | _, _ => false

theorem length_filter_le_range (n m : Nat) :
    ((List.range n).filter (fun i => decide (i ≤ m))).length
      = min (m + 1) n := by
  induction n with
  | zero => simp
  | succ n ih =>
    rw [List.range_succ, List.filter_append, List.length_append, ih]
    by_cases h : n ≤ m
    · simp [List.filter_cons, h]
      omega
    · simp [List.filter_cons, h]
      omega

theorem windowOffsets_length (size k s : Nat) (hk : 1 ≤ k) (hks : k ≤ size)
    (hs : 1 ≤ s) :
    (windowOffsets size k s).length = 1 + (size - k) / s := by
  have hq : (size - k) / s ≤ size - k := Nat.div_le_self _ _
  have hmain : ∀ i : Nat, (i * s + k ≤ size) ↔ (i ≤ (size - k) / s) := by
    intro i
    rw [Nat.le_div_iff_mul_le hs]
    omega
  unfold windowOffsets
  rw [List.filter_map, List.length_map]
  have hcongr :
      (List.range size).filter ((fun off => decide (off + k ≤ size)) ∘
          (fun i => i * s))
        = (List.range size).filter (fun i => decide (i ≤ (size - k) / s)) := by
    apply List.filter_congr
    intro i _
    simp only [Function.comp_apply, decide_eq_decide]
    exact hmain i
  rw [hcongr, length_filter_le_range]
  omega

theorem map_const_zero (l : List Rat) :
    l.map (fun _ => (0 : Rat)) = List.replicate l.length 0 := by
  induction l with
  | nil => rfl
  | cons x xs ih => simp [ih, List.replicate]

theorem zerosLike_zerosLike (t : Tensor) :
    zerosLike (zerosLike t) = zerosLike t := by
  simp [zerosLike, List.map_map]

theorem flush_twice (l : List (String × Tensor)) :
    (l.map (fun kv => (kv.1, zerosLike kv.2))).map
        (fun kv => (kv.1, zerosLike kv.2))
      = l.map (fun kv => (kv.1, zerosLike kv.2)) := by
  rw [List.map_map]
  apply List.map_congr_left
  intro kv _
  simp [Function.comp, zerosLike_zerosLike]

theorem zeroed_eq_of_aligned (g q : List (String × Tensor))
    (h : alignedB g q = true) :
    g.map (fun kv => (kv.1, zerosLike kv.2))
      = q.map (fun kv => (kv.1, zeroTensor kv.2.shape kv.2.data.length)) := by
  induction g generalizing q with
  | nil =>
    cases q with
    | nil => rfl
    | cons qh qt => simp [alignedB] at h
  | cons gh gt ih =>
    cases q with
    | nil => simp [alignedB] at h
    | cons qh qt =>
      simp only [alignedB, Bool.and_eq_true, beq_iff_eq] at h
      obtain ⟨⟨⟨hk, hsh⟩, hlen⟩, ht⟩ := h
      have hz : zerosLike gh.2 = zeroTensor qh.2.shape qh.2.data.length := by
        unfold zerosLike zeroTensor
        rw [map_const_zero, hsh, hlen]
      simp only [List.map_cons, ih qt ht, List.cons.injEq, and_true]
      rw [hk, hz]

/-- Claim C1: the claim says `Dropout.forward` masks the input (when
trainable) and delegates to the wrapped layer's forward; in the code the
delegation target is `self._wrapped_layer`, an attribute no constructor ever
assigns, so every call raises `AttributeError` instead of delegating. -/
theorem dropout_forward_always_attribute_error
    (d : DropoutObj) (rands : List Rat) (X : Tensor) :
    d.forward rands X = .error .attributeError := rfl

/-- Claim C2: the claim says `freeze()` then `unfreeze()` restores the
trainable flag to `True`; in the code `WrapperBase.unfreeze` calls
`self._base_layer.freeze()` (wrappers.py line 72), so after
freeze-then-unfreeze the layer is still frozen — and `unfreeze` on any
wrapper leaves the flag `False`. -/
theorem unfreeze_does_not_restore_trainable (d : DropoutObj) :
    (d.freeze).trainable = false ∧
    ((d.freeze).unfreeze).trainable = false ∧
    (d.unfreeze).trainable = false :=
  ⟨rfl, rfl, rfl⟩

/-- Claim C3: on a wrapper over a frozen base layer, `flush_gradients`,
`update` and `backward` all fail with the frozen-layer assertion
`"Layer is frozen"`; the assertion is the first statement of each method, so
no parameter or gradient state is touched (the error return carries no
updated state). -/
theorem frozen_wrapper_rejects_state_mutation
    (d : DropoutObj) (lr : Rat) (t : Tensor)
    (h : d.trainable = false) :
    d.flush_gradients = .error (.assertionError "Layer is frozen") ∧
    d.update lr = .error (.assertionError "Layer is frozen") ∧
    d.backward t = .error (.assertionError "Layer is frozen") := by
  refine ⟨?_, ?_, ?_⟩ <;>
    simp [DropoutObj.flush_gradients, DropoutObj.update, DropoutObj.backward, h]

theorem frozen_wrapper_rejects_state_mutation_witness :
    frozenSample.trainable = false ∧
    (frozenSample.flush_gradients
        = .error (.assertionError "Layer is frozen") ∧
      frozenSample.update 1 = .error (.assertionError "Layer is frozen") ∧
      frozenSample.backward { shape := [1], data := [0] }
        = .error (.assertionError "Layer is frozen")) :=
  ⟨rfl, frozen_wrapper_rejects_state_mutation frozenSample 1
    { shape := [1], data := [0] } rfl⟩

/-- Claim C4: on a trainable wrapper, `update(lr)` applies the base layer's
parameter update (the spec-modelled gradient-descent step over the
accumulated gradients) and then implicitly flushes, so that on return every
gradient accumulator is the zero tensor of the corresponding parameter's
shape (given the §3 invariant that gradients are shape-aligned with
parameters). -/
theorem wrapper_update_applies_step_and_zeroes_gradients
    (d : DropoutObj) (lr : Rat)
    (ht : d.trainable = true)
    (ha : alignedB d.base_layer.gradients d.base_layer.parameters = true) :
    ∃ d' : DropoutObj, d.update lr = .ok d' ∧
      d'.parameters = gdStep lr d.base_layer.parameters d.base_layer.gradients ∧
      d'.gradients = d.base_layer.parameters.map
        (fun kv => (kv.1, zeroTensor kv.2.shape kv.2.data.length)) := by
  refine ⟨{ d with base_layer := (d.base_layer.update lr).flush_gradients },
    ?_, ?_, ?_⟩
  · simp [DropoutObj.update, ht]
  · simp [DropoutObj.parameters, BaseLayer.update, BaseLayer.flush_gradients]
  · show ((d.base_layer.update lr).flush_gradients).gradients = _
    simp only [BaseLayer.update, BaseLayer.flush_gradients]
    rw [flush_twice]
    exact zeroed_eq_of_aligned _ _ ha

theorem wrapper_update_applies_step_and_zeroes_gradients_witness :
    (mkDropout (.base sampleLayer) ((1 : Rat) / 2)).trainable = true ∧
    alignedB (mkDropout (.base sampleLayer) ((1 : Rat) / 2)).base_layer.gradients
      (mkDropout (.base sampleLayer) ((1 : Rat) / 2)).base_layer.parameters
      = true ∧
    ∃ d' : DropoutObj,
      (mkDropout (.base sampleLayer) ((1 : Rat) / 2)).update 1 = .ok d' ∧
      d'.parameters = gdStep 1
        (mkDropout (.base sampleLayer) ((1 : Rat) / 2)).base_layer.parameters
        (mkDropout (.base sampleLayer) ((1 : Rat) / 2)).base_layer.gradients ∧
      d'.gradients = (mkDropout (.base sampleLayer)
          ((1 : Rat) / 2)).base_layer.parameters.map
        (fun kv => (kv.1, zeroTensor kv.2.shape kv.2.data.length)) :=
  ⟨rfl, by decide,
    wrapper_update_applies_step_and_zeroes_gradients _ 1 rfl (by decide)⟩

/-- Claim C5: every state accessor of a wrapper returns exactly the wrapped
base layer's corresponding state.  The equalities hold for every wrapper
state, hence for the state reached after any sequence of operations
performed through the wrapper, which is the claimed preservation. -/
theorem wrapper_accessors_proxy_base_layer (d : DropoutObj) :
    d.trainable = d.base_layer.trainable ∧
    d.parameters = d.base_layer.parameters ∧
    d.hyperparameters = d.base_layer.hyperparameters ∧
    d.gradients = d.base_layer.gradients ∧
    d.derived_variables = d.base_layer.derived_variables ∧
    d.n_in = d.base_layer.n_in ∧
    d.n_out = d.base_layer.n_out ∧
    d.act_fn = d.base_layer.act_fn ∧
    d.X = d.base_layer.X :=
  ⟨rfl, rfl, rfl, rfl, rfl, rfl, rfl, rfl, rfl⟩

/-- Claim C6: for a wrapped layer the summary is the four-field record
(`layer`, `layer_wrappers`, `parameters`, `hyperparameters`), with
`layer_wrappers` the attached wrapper names in attachment order, and
`set_params` of that summary restores the parameters and hyperparameters to
the summarized values (from any wrapper state over any base layer). -/
theorem summary_keys_and_set_params_inverse (ref : LayerRef) (p : Rat) :
    ∃ s : Summary,
      (mkDropout ref p).summary = .ok s ∧
      s.layer = (mkDropout ref p).hyperparameters.layer ∧
      s.layer_wrappers
        = ((ref.resolve.hyperparameters.wrappers.getD []).map
            (fun w => w.wrapper)) ++ ["Dropout"] ∧
      s.parameters = (mkDropout ref p).parameters ∧
      s.hyperparameters = (mkDropout ref p).hyperparameters ∧
      ∀ d2 : DropoutObj,
        (d2.set_params s).parameters = s.parameters ∧
        (d2.set_params s).hyperparameters = s.hyperparameters := by
  rcases hw : ref.resolve.hyperparameters.wrappers with _ | ws <;>
    simp [mkDropout, initParams, DropoutObj.summary, DropoutObj.hyperparameters,
      DropoutObj.parameters, DropoutObj.set_params, BaseLayer.set_params, hw]

/-- Claim C7: attaching a `Dropout` wrapper appends exactly the one
descriptor `{wrapper := "Dropout", p}` to the base layer's `"wrappers"`
hyperparameter entry (creating the list when the key is absent) and leaves
every other hyperparameter entry — and all other layer state — unchanged;
the remaining state operations never modify the hyperparameters. -/
theorem attach_appends_one_descriptor_hyperparams_otherwise_readonly
    (ref : LayerRef) (p : Rat) (l : BaseLayer) (lr : Rat) :
    ((mkDropout ref p).base_layer.hyperparameters.wrappers
        = some ((ref.resolve.hyperparameters.wrappers.getD [])
            ++ [{ wrapper := "Dropout", p := p }])) ∧
    (mkDropout ref p).base_layer.hyperparameters.layer
        = ref.resolve.hyperparameters.layer ∧
    (mkDropout ref p).base_layer.hyperparameters.rest
        = ref.resolve.hyperparameters.rest ∧
    (mkDropout ref p).base_layer.parameters = ref.resolve.parameters ∧
    (mkDropout ref p).base_layer.gradients = ref.resolve.gradients ∧
    (mkDropout ref p).base_layer.trainable = ref.resolve.trainable ∧
    (l.freeze).hyperparameters = l.hyperparameters ∧
    (l.unfreeze).hyperparameters = l.hyperparameters ∧
    (l.flush_gradients).hyperparameters = l.hyperparameters ∧
    (l.update lr).hyperparameters = l.hyperparameters := by
  refine ⟨?_, rfl, rfl, rfl, rfl, rfl, rfl, rfl, rfl, rfl⟩
  rcases hw : ref.resolve.hyperparameters.wrappers with _ | ws <;>
    simp [mkDropout, initParams, hw]

/-- Claim C8: the forward pass of a `Conv2D` layer (spec-modelled: the layer
implementation is not among the sources) produces an output whose spatial
size along each dimension is `floor(1 + (in + 2·pad - kernel) / stride)`,
provided the kernel fits in the padded input and the stride is positive. -/
theorem conv2d_output_spatial_size (cfg : Conv2DCfg) (act : Rat → Rat)
    (W : Nat → Nat → Nat → Nat → Rat) (bias : Nat → Rat)
    (inRows inCols : Nat) (X : Nat → Nat → Nat → Rat)
    (hkr1 : 1 ≤ cfg.kernelRows)
    (hkr : cfg.kernelRows ≤ inRows + 2 * cfg.pad)
    (hkc1 : 1 ≤ cfg.kernelCols)
    (hkc : cfg.kernelCols ≤ inCols + 2 * cfg.pad)
    (hs : 1 ≤ cfg.stride) :
    (conv2DForward cfg act W bias inRows inCols X).length
        = 1 + (inRows + 2 * cfg.pad - cfg.kernelRows) / cfg.stride ∧
    ∀ row ∈ conv2DForward cfg act W bias inRows inCols X,
      row.length = 1 + (inCols + 2 * cfg.pad - cfg.kernelCols) / cfg.stride := by
  constructor
  · simp only [conv2DForward, List.length_map]
    exact windowOffsets_length _ _ _ hkr1 hkr hs
  · intro row hrow
    simp only [conv2DForward, List.mem_map] at hrow
    obtain ⟨i, _, hi⟩ := hrow
    rw [← hi, List.length_map]
    exact windowOffsets_length _ _ _ hkc1 hkc hs

theorem conv2d_output_spatial_size_witness :
    1 ≤ convCfgSample.kernelRows ∧
    convCfgSample.kernelRows ≤ 5 + 2 * convCfgSample.pad ∧
    1 ≤ convCfgSample.stride ∧
    (conv2DForward convCfgSample (fun x => x)
        (fun _ _ _ _ => 1) (fun _ => 0) 5 5 (fun _ _ _ => 1)).length
      = 1 + (5 + 2 * convCfgSample.pad - convCfgSample.kernelRows)
          / convCfgSample.stride :=
  ⟨by decide, by decide, by decide,
    (conv2d_output_spatial_size convCfgSample (fun x => x)
      (fun _ _ _ _ => 1) (fun _ => 0) 5 5 (fun _ _ _ => 1)
      (by decide) (by decide) (by decide) (by decide) (by decide)).1⟩

/-- Claim C9: wrapping an existing wrapper binds the new wrapper directly to
the innermost base layer: constructing `Dropout` over a wrapper is the same
object state as constructing it over that wrapper's own base layer, its
stored base layer is the (descriptor-extended) innermost layer, and its
accessors read that innermost layer's state. -/
theorem rewrapping_binds_innermost_base_layer (d : DropoutObj) (p : Rat) :
    mkDropout (.wrapper d) p = mkDropout (.base d.base_layer) p ∧
    (mkDropout (.wrapper d) p).base_layer
        = initParams { wrapper := "Dropout", p := p } d.base_layer ∧
    (mkDropout (.wrapper d) p).parameters = d.base_layer.parameters ∧
    (mkDropout (.wrapper d) p).trainable = d.base_layer.trainable ∧
    (mkDropout (.wrapper d) p).gradients = d.base_layer.gradients :=
  ⟨rfl, rfl, rfl, rfl, rfl⟩

/-- Claim C10: the training-mode mask of `Dropout.forward` takes only the
values `0` and `1`, a kept element passes at its original magnitude (no
`1/(1-p)` rescaling), the keep event on a uniform draw in `[0, 1)` is
exactly the interval `[p, 1)` (probability `1-p`), and the expectation of a
masked element under keep probability `1-p` is `(1-p)·x`, not `x`. -/
theorem dropout_mask_no_inverted_rescaling (p : Rat)
    (hp0 : 0 ≤ p) (hp1 : p ≤ 1) (rands xs : List Rat) :
    (∀ r ∈ rands, maskVal p r = 0 ∨ maskVal p r = 1) ∧
    dropoutMaskedData p rands xs
      = List.zipWith (fun r x => if dropoutKeep p r then x else 0) rands xs ∧
    (∀ r : Rat, 0 ≤ r → r < 1 →
      (dropoutKeep p r = true ↔ r ∈ Set.Ico p 1)) ∧
    (∀ x : Rat,
      bernoulliExpect (1 - p) (fun keep => (if keep then (1 : Rat) else 0) * x)
        = (1 - p) * x) := by
  refine ⟨?_, ?_, ?_, ?_⟩
  · intro r _
    by_cases h : dropoutKeep p r
    · right; simp [maskVal, h]
    · left; simp [maskVal, h]
  · have hfun : (fun r x => maskVal p r * x)
        = (fun (r x : Rat) => if dropoutKeep p r then x else 0) := by
      funext r x
      by_cases h : dropoutKeep p r <;> simp [maskVal, h]
    unfold dropoutMaskedData
    rw [hfun]
  · intro r _ hr1
    simp only [dropoutKeep, decide_eq_true_eq, Set.mem_Ico]
    exact ⟨fun h => ⟨h, hr1⟩, fun h => h.1⟩
  · intro x
    have hb : bernoulliExpect (1 - p)
        (fun keep => (if keep then (1 : Rat) else 0) * x)
          = (1 - p) * (1 * x) + (1 - (1 - p)) * (0 * x) := rfl
    rw [hb]
    ring

theorem dropout_mask_no_inverted_rescaling_witness :
    0 ≤ (1 : Rat) / 2 ∧ (1 : Rat) / 2 ≤ 1 ∧
    ((∀ r ∈ [(1 : Rat) / 4, (3 : Rat) / 4],
        maskVal ((1 : Rat) / 2) r = 0 ∨ maskVal ((1 : Rat) / 2) r = 1) ∧
      dropoutMaskedData ((1 : Rat) / 2) [(1 : Rat) / 4, (3 : Rat) / 4]
          [(5 : Rat), (7 : Rat)]
        = List.zipWith (fun r x => if dropoutKeep ((1 : Rat) / 2) r then x else 0)
            [(1 : Rat) / 4, (3 : Rat) / 4] [(5 : Rat), (7 : Rat)] ∧
      (∀ r : Rat, 0 ≤ r → r < 1 →
        (dropoutKeep ((1 : Rat) / 2) r = true ↔ r ∈ Set.Ico ((1 : Rat) / 2) 1)) ∧
      (∀ x : Rat,
        bernoulliExpect (1 - (1 : Rat) / 2)
            (fun keep => (if keep then (1 : Rat) else 0) * x)
          = (1 - (1 : Rat) / 2) * x)) :=
  ⟨by norm_num, by norm_num,
    dropout_mask_no_inverted_rescaling ((1 : Rat) / 2) (by norm_num)
      (by norm_num) [(1 : Rat) / 4, (3 : Rat) / 4] [(5 : Rat), (7 : Rat)]⟩
